import Mathlib

set_option autoImplicit false

/-!
Shallow embedding of `src/files/repositories.py` (a thin data-access layer:
a generic `Repository` with `filter` / `get` / `get_or_create` / `all` /
`last_id`, and the entity repositories for stores, products, categories and
favorites).  The database gateway (`db.query`, module `database.py`) and the
exception classes (`exceptions.py`) are collaborators that are not part of the
analysed source; their behaviour is modelled from the specification where a
definition needs it, and each such definition says so in its doc comment.

Rows returned by the gateway are modelled as association lists from column
names to SQL values; the per-entity tables live in an explicit `DB` state
record that the stateful operations thread through.
-/

namespace Charles

/-- An SQL value as it travels between the gateway and the repository layer:
an integer column, a string column, or SQL NULL (which also models a Python
`None` passed as a search term). -/
inductive Value where
  | int (n : Nat)
  | str (s : String)
  | null
  deriving DecidableEq, Repr

/-- One row of a gateway result set: column name to value, as produced by
`.all(as_dict=True)`. -/
abbrev Row := List (String × Value)

/-- A `**search_terms` mapping: field name to value; `Value.null` is a term
whose value is Python `None` (present in the mapping but absent from the
predicate). -/
abbrev Terms := List (String × Value)

/-- Column lookup in a row (`instance[field]` on the dict form of a row). -/
def lookupField (row : Row) (field : String) : Option Value :=
  match row with
  | [] => none
  | (k, v) :: rest => if k = field then some v else lookupField rest field

/-- The error conditions visible at the repository layer.
`notFoundError` and `notUniqueError` are the two classes of `exceptions.py`
(raised by `Repository.get`); `constraintViolation` and `queryError` are the
gateway's own failures, modelled from the specification (uniqueness /
foreign-key violations, and any other rejected statement); `nameError` is the
Python built-in `NameError`, raised when a function body evaluates an unbound
variable. -/
inductive RepoError where
  | notFoundError
  | notUniqueError
  | constraintViolation
  | queryError
  | nameError
  deriving DecidableEq, Repr

namespace Repository

/-- Whether a row satisfies the conjunctive equality predicate that
`Repository.filter` assembles: every search term whose value is not NULL must
equal the row's value in that column (a term with value `None` is omitted from
the predicate entirely). -/
def rowMatches (search_terms : Terms) (row : Row) : Bool :=
  search_terms.all fun tv =>
    tv.2 == Value.null || lookupField row tv.1 == some tv.2

/-- `Repository.filter(**search_terms)` over the current table's rows:
`SELECT * FROM table WHERE <conjunction of term = :term over non-None terms>`,
each returned row turned into a model instance (kept as the row itself here). -/
def filter (search_terms : Terms) (rows : List Row) : List Row :=
  rows.filter (rowMatches search_terms)

/-- `Repository.get(**search_terms)`: filters, raises `NotFoundError` on an
empty result, `NotUniqueError` when more than one row matches, and otherwise
returns the single instance. -/
def get (search_terms : Terms) (rows : List Row) : Except RepoError Row :=
  let instances := filter search_terms rows
  if instances.isEmpty then
    .error .notFoundError
  else if 1 < instances.length then
    .error .notUniqueError
  else
    .ok (instances.headD [])

/-- `Repository.get_or_create(**search_terms)`: tries `get`; only the
`NotFoundError` branch falls back to `create(**search_terms)` (passed in here,
as `create` dispatches to the concrete repository); every other error
re-raises. -/
def get_or_create (create : Terms → Except RepoError Row)
    (search_terms : Terms) (rows : List Row) : Except RepoError Row :=
  match get search_terms rows with
  | .ok inst => .ok inst
  | .error .notFoundError => create search_terms
  | .error e => .error e

/-- `Repository.all()`: `filter` with an empty term mapping. -/
def all (rows : List Row) : List Row :=
  filter [] rows

/-- `Repository.last_id`: runs `SELECT LAST_INSERT_ID() AS id` through the
gateway and returns the `id` column of the first row of the result set (the
`for` loop returns on its first iteration); when the result set is empty the
loop body never runs and the property returns `None`. -/
def last_id (rows : List Row) : Option Value :=
  match rows with
  | [] => none
  | row :: _ => lookupField row "id"

end Repository

/-- A row of the `store` or `category` table: auto-increment integer primary
key `id` plus a `name` column (both tables have this exact shape). -/
structure NamedRow where
  id : Nat
  name : String
  deriving DecidableEq, Repr

/-- A `product` row and equally the in-memory product model instance: the
externally supplied id (barcode), name, nutrition grade and optional url. -/
structure Product where
  id : Nat
  name : String
  nutrition_grade : String
  url : Option String
  deriving DecidableEq, Repr

/-- A `favorite` row and equally the favorite model instance: the composite
key (substitute product id, original product id), column names as in the
source schema. -/
structure Favorite where
  substitut_id : Nat
  original_id : Nat
  deriving DecidableEq, Repr

/-- A `product_store` edge row. -/
structure ProductStoreRow where
  product_id : Nat
  store_id : Nat
  deriving DecidableEq, Repr

/-- A `product_category` edge row. -/
structure ProductCategoryRow where
  product_id : Nat
  category_id : Nat
  deriving DecidableEq, Repr

/-- The in-memory store model instance: `id` is `none` until the row exists
(server-assigned), `name` is required. -/
structure Store where
  id : Option Nat
  name : String
  deriving DecidableEq, Repr

/-- The in-memory category model instance (same shape as `Store`). -/
structure Category where
  id : Option Nat
  name : String
  deriving DecidableEq, Repr

/-- A product reference built from the `id` and `name` columns only, as the
relationship queries `SELECT product.id, product.name ...` produce. -/
structure ProdIdName where
  id : Nat
  name : String
  deriving DecidableEq, Repr

/-- Modelled from the spec: the state of the external relational store behind
the gateway — the six tables of the persisted schema plus the next value of
each auto-increment counter. -/
structure DB where
  store : List NamedRow
  product : List Product
  category : List NamedRow
  favorite : List Favorite
  product_store : List ProductStoreRow
  product_category : List ProductCategoryRow
  nextStoreId : Nat
  nextCategoryId : Nat
  deriving DecidableEq, Repr

/-- Python truthiness of an optional integer id (`if not store.id:` is taken
when the id is `None` or `0`). -/
def pyTruthy : Option Nat → Bool
  | none => false
  | some n => decide (n ≠ 0)

/-- The gateway row (`as_dict`) for a `store` or `category` table row. -/
def NamedRow.toRow (r : NamedRow) : Row :=
  [("id", Value.int r.id), ("name", Value.str r.name)]

/-- `self.model(**instance)` for the store model: rebuild a `Store` from a
gateway row's `id` and `name` columns. -/
def Store.ofRow (row : Row) : Store :=
  { id := match lookupField row "id" with
      | some (Value.int n) => some n
      | _ => none
    name := match lookupField row "name" with
      | some (Value.str s) => s
      | _ => "" }

/-- Modelled from the spec: the gateway (MySQL) semantics of
`INSERT INTO t (id, name) VALUES (:id, :name) ON DUPLICATE KEY UPDATE
name = :name` on a table whose primary key `id` auto-increments — binding
NULL (or 0) for `id` inserts a fresh row under the next auto-increment value;
binding an id that collides with an existing row updates that row's name in
place; binding a fresh nonzero id inserts under it (bumping the counter past
it).  Returns the updated table and counter. -/
def upsertNamedRow (rows : List NamedRow) (nextId : Nat) (id : Option Nat)
    (name : String) : List NamedRow × Nat :=
  match id with
  | none => (rows ++ [⟨nextId, name⟩], nextId + 1)
  | some i =>
    if i = 0 then
      (rows ++ [⟨nextId, name⟩], nextId + 1)
    else if ∃ r ∈ rows, r.id = i then
      (rows.map fun r => if r.id = i then { r with name := name } else r, nextId)
    else
      (rows ++ [⟨i, name⟩], max nextId (i + 1))

/-- The `self.get(name=store.name)` call inside `StoreRepository.save`: the
generic `Repository.get` over the `store` table with the single search term
`name`, the found row rebuilt as a `Store`. -/
def StoreRepository.get_by_name (db : DB) (name : String) : Except RepoError Store :=
  (Repository.get [("name", Value.str name)] (db.store.map NamedRow.toRow)).map
    Store.ofRow

/-- `StoreRepository.save`: issues the upsert-by-id insert, then — only when
the instance arrived without a (truthy) id — re-reads the row by name through
`get` and writes the found id back into the instance before returning it.
Errors of that lookup (not found / not unique name) propagate. -/
def StoreRepository.save (db : DB) (store : Store) : Except RepoError (Store × DB) :=
  let res := upsertNamedRow db.store db.nextStoreId store.id store.name
  let db' : DB := { db with store := res.1, nextStoreId := res.2 }
  if pyTruthy store.id then
    .ok (store, db')
  else
    match StoreRepository.get_by_name db' store.name with
    | .ok found => .ok ({ store with id := found.id }, db')
    | .error e => .error e

/-- Modelled from the spec: the gateway (MySQL) semantics of
`INSERT IGNORE INTO product_store(product_id, store_id) VALUES (...)` on the
edge table with primary key (product_id, store_id) and foreign keys to
`product(id)` and `store(id)` — the row is inserted unless the pair is
already present, a referenced row is missing, or the bound store id is NULL;
IGNORE downgrades every such failure to a warning, so the statement never
raises and the table is simply left unchanged. -/
def insertIgnoreProductStore (db : DB) (product_id : Nat)
    (store_id : Option Nat) : DB :=
  match store_id with
  | none => db
  | some sid =>
    if (∃ p ∈ db.product, p.id = product_id) ∧ (∃ s ∈ db.store, s.id = sid) ∧
        ¬ ∃ e ∈ db.product_store, e.product_id = product_id ∧ e.store_id = sid then
      { db with product_store := db.product_store ++ [⟨product_id, sid⟩] }
    else
      db

/-- Modelled from the spec: same `INSERT IGNORE` semantics for the
`product_category(product_id, category_id)` edge table. -/
def insertIgnoreProductCategory (db : DB) (product_id : Nat)
    (category_id : Option Nat) : DB :=
  match category_id with
  | none => db
  | some cid =>
    if (∃ p ∈ db.product, p.id = product_id) ∧ (∃ c ∈ db.category, c.id = cid) ∧
        ¬ ∃ e ∈ db.product_category, e.product_id = product_id ∧ e.category_id = cid then
      { db with product_category := db.product_category ++ [⟨product_id, cid⟩] }
    else
      db

/-- `StoreRepository.add_product(store, product)`: the `INSERT IGNORE` of the
(product.id, store.id) pair into `product_store`. -/
def StoreRepository.add_product (db : DB) (store : Store) (product : Product) : DB :=
  insertIgnoreProductStore db product.id store.id

/-- `ProductRepository.add_store(product, store)`: textually the same
`INSERT IGNORE` into `product_store` as `StoreRepository.add_product`. -/
def ProductRepository.add_store (db : DB) (product : Product) (store : Store) : DB :=
  insertIgnoreProductStore db product.id store.id

/-- `ProductRepository.add_category(product, category)`: the `INSERT IGNORE`
of the (product.id, category.id) pair into `product_category`. -/
def ProductRepository.add_category (db : DB) (product : Product)
    (category : Category) : DB :=
  insertIgnoreProductCategory db product.id category.id

/-- `ProductRepository.save`: a plain `INSERT INTO product (id, name,
nutrition_grade, url) VALUES (...)` with no upsert clause; the gateway
(modelled from the spec) rejects a duplicate primary key with a constraint
violation, otherwise the row is appended and the instance returned
unchanged. -/
def ProductRepository.save (db : DB) (product : Product) : Except RepoError (Product × DB) :=
  if ∃ p ∈ db.product, p.id = product.id then
    .error .constraintViolation
  else
    .ok (product, { db with product := db.product ++ [product] })

/-- `CategoryRepository.save`: issues the same upsert-by-id insert as the
store repository but returns the instance as it arrived — there is no
follow-up lookup and the instance's id is never written. -/
def CategoryRepository.save (db : DB) (category : Category) : Category × DB :=
  let res := upsertNamedRow db.category db.nextCategoryId category.id category.name
  (category, { db with category := res.1, nextCategoryId := res.2 })

/-- `FavoriteRepository.save`: a plain `INSERT INTO favorite (substitut_id,
original_id) VALUES (...)` with no upsert and no IGNORE; the gateway
(modelled from the spec) rejects a duplicate (substitute, original) pair or a
reference to a missing product with a constraint violation, otherwise the
row is appended and the instance returned unchanged. -/
def FavoriteRepository.save (db : DB) (favorite : Favorite) : Except RepoError (Favorite × DB) :=
  if (∃ f ∈ db.favorite,
        f.substitut_id = favorite.substitut_id ∧ f.original_id = favorite.original_id) ∨
      ¬ (∃ p ∈ db.product, p.id = favorite.substitut_id) ∨
      ¬ (∃ p ∈ db.product, p.id = favorite.original_id) then
    .error .constraintViolation
  else
    .ok (favorite, { db with favorite := db.favorite ++ [favorite] })

/-- `ProductRepository.get_favorite_by_product(product)` from the source: its
body evaluates `store.id` while no name `store` is bound anywhere (the
parameter is `product` and the module defines no global `store`), so every
call raises the Python built-in `NameError` while assembling the query
arguments, before any statement reaches the gateway. -/
def ProductRepository.get_favorite_by_product (db : DB) (product : Product) :
    Except RepoError (List ProdIdName) :=
  .error .nameError

/-- `FavoriteRepository.get_all_by_favorite(store)`: despite living on the
favorite repository, its query is `SELECT product.id, product.name FROM store
JOIN product_store ON product_store.store_id = store.id JOIN product ON
product_store.product_id = product.id WHERE store.id = :id` — a nested-loop
join through the `product_store` edge table, never touching `favorite`
rows.  A `None` store id matches no row (`store.id = NULL` is never true). -/
def FavoriteRepository.get_all_by_favorite (db : DB) (store : Store) : List ProdIdName :=
  match store.id with
  | none => []
  | some sid =>
    (db.store.filter fun s => decide (s.id = sid)).flatMap fun _ =>
      (db.product_store.filter fun e => decide (e.store_id = sid)).flatMap fun e =>
        (db.product.filter fun p => decide (p.id = e.product_id)).map fun p =>
          ProdIdName.mk p.id p.name

/-- `CategoryRepository.get_all_by_category(category)` from the source: its
query selects FROM `store`, its first ON clause refers to `product` before
that table is joined, its second ON clause refers to `category.id` although
`category` appears nowhere in the FROM clause, and its WHERE compares
`product.id` to the bound category id.  The gateway (MySQL, modelled from the
spec) rejects the statement with an unknown-column error before returning any
row, so every call fails with the propagated query error. -/
def CategoryRepository.get_all_by_category (db : DB) (category : Category) :
    Except RepoError (List ProdIdName) :=
  .error .queryError

end Charles

open Charles

/-- C1: `Repository.get` returns the single instance when `filter` yields
exactly one row, raises `NotFoundError` when it yields none, and raises
`NotUniqueError` when it yields more than one. -/
theorem get_zero_one_many (search_terms : Terms) (rows : List Row) :
    (Repository.filter search_terms rows = [] →
      Repository.get search_terms rows = .error .notFoundError) ∧
    (∀ r, Repository.filter search_terms rows = [r] →
      Repository.get search_terms rows = .ok r) ∧
    (1 < (Repository.filter search_terms rows).length →
      Repository.get search_terms rows = .error .notUniqueError) := by
  refine ⟨?_, ?_, ?_⟩
  · intro h
    simp [Repository.get, h]
  · intro r h
    simp [Repository.get, h]
  · intro h
    cases hl : Repository.filter search_terms rows with
    | nil => rw [hl] at h; simp at h
    | cons a t =>
      cases t with
      | nil => rw [hl] at h; simp at h
      | cons b t2 => simp [Repository.get, hl]

/-- C1 witness: on a table with one matching row, `get` returns it. -/
theorem get_zero_one_many_witness :
    Repository.get [("name", Value.str "a")] [[("name", Value.str "a")]] =
      .ok [("name", Value.str "a")] :=
  (get_zero_one_many [("name", Value.str "a")] [[("name", Value.str "a")]]).2.1
    [("name", Value.str "a")] (by decide)

/-- C2: `get_or_create` returns what `get` returns; exactly the
`NotFoundError` outcome is replaced by a call to `create` on the same terms;
every other error (in particular `NotUniqueError`) propagates unchanged. -/
theorem get_or_create_propagation (create : Terms → Except RepoError Row)
    (search_terms : Terms) (rows : List Row) :
    (∀ r, Repository.get search_terms rows = .ok r →
      Repository.get_or_create create search_terms rows = .ok r) ∧
    (Repository.get search_terms rows = .error .notFoundError →
      Repository.get_or_create create search_terms rows = create search_terms) ∧
    (∀ e, e ≠ RepoError.notFoundError →
      Repository.get search_terms rows = .error e →
      Repository.get_or_create create search_terms rows = .error e) := by
  refine ⟨?_, ?_, ?_⟩
  · intro r h
    simp [Repository.get_or_create, h]
  · intro h
    simp [Repository.get_or_create, h]
  · intro e he h
    cases e <;> simp [Repository.get_or_create, h] at he ⊢

/-- C2 witness: with two rows matching the term, `get` finds more than one
row and `get_or_create` surfaces `NotUniqueError` instead of creating. -/
theorem get_or_create_propagation_witness :
    Repository.get_or_create (fun _ => .ok [])
      [("a", Value.int 1)] [[("a", Value.int 1)], [("a", Value.int 1)]] =
      .error .notUniqueError :=
  (get_or_create_propagation (fun _ => .ok [])
      [("a", Value.int 1)] [[("a", Value.int 1)], [("a", Value.int 1)]]).2.2
    RepoError.notUniqueError (by decide) rfl

/-- C3: when every search term carries an absent (`None`) value, the
assembled predicate is unconditional and `filter` returns every row of the
table, exactly as `all()` does. -/
theorem filter_absent_terms_eq_all (search_terms : Terms) (rows : List Row)
    (h : ∀ tv ∈ search_terms, tv.2 = Value.null) :
    Repository.filter search_terms rows = Repository.all rows := by
  unfold Repository.all Repository.filter
  have hall : ∀ row : Row, Repository.rowMatches search_terms row = true := by
    intro row
    unfold Repository.rowMatches
    rw [List.all_eq_true]
    intro tv htv
    rw [h tv htv]
    simp
  have hempty : ∀ row : Row, Repository.rowMatches [] row = true := by
    intro row
    simp [Repository.rowMatches]
  rw [List.filter_eq_self.mpr fun a _ => hall a,
    List.filter_eq_self.mpr fun a _ => hempty a]

/-- C3 witness: a mapping with two `None`-valued terms filters nothing out. -/
theorem filter_absent_terms_eq_all_witness :
    Repository.filter [("name", Value.null), ("id", Value.null)]
        [[("id", Value.int 1)], [("id", Value.int 2)]] =
      Repository.all [[("id", Value.int 1)], [("id", Value.int 2)]] :=
  filter_absent_terms_eq_all [("name", Value.null), ("id", Value.null)]
    [[("id", Value.int 1)], [("id", Value.int 2)]] (by decide)

/-- C10: `last_id` returns the `id` column of the first row of the
`LAST_INSERT_ID()` result set, and returns `None` rather than failing when
that result set is empty. -/
theorem last_id_first_row (rows : List Row) :
    (rows = [] → Repository.last_id rows = none) ∧
    (∀ row rest, rows = row :: rest →
      Repository.last_id rows = lookupField row "id") := by
  refine ⟨?_, ?_⟩
  · intro h
    rw [h]
    rfl
  · intro row rest h
    rw [h]
    rfl

/-- C10 witness: on a one-row result set the `id` column is returned. -/
theorem last_id_first_row_witness :
    Repository.last_id [[("id", Value.int 7)]] = some (Value.int 7) :=
  (last_id_first_row [[("id", Value.int 7)]]).2 [("id", Value.int 7)] [] rfl

theorem rowMatches_name (nm : String) (r : NamedRow) :
    Repository.rowMatches [("name", Value.str nm)] (NamedRow.toRow r) =
      decide (r.name = nm) := by
  by_cases h : r.name = nm <;>
    simp [Repository.rowMatches, NamedRow.toRow, lookupField, h]

theorem filter_by_name (nm : String) (rows : List NamedRow) :
    Repository.filter [("name", Value.str nm)] (rows.map NamedRow.toRow) =
      (rows.filter fun r => decide (r.name = nm)).map NamedRow.toRow := by
  unfold Repository.filter
  rw [List.filter_map]
  exact congrArg _ (List.filter_congr fun r _ => rowMatches_name nm r)

theorem get_on_fresh_name (rows : List NamedRow) (nid : Nat) (nm : String)
    (hfresh : ∀ r ∈ rows, r.name ≠ nm) :
    Repository.get [("name", Value.str nm)]
        ((rows ++ [NamedRow.mk nid nm]).map NamedRow.toRow) =
      .ok (NamedRow.toRow (NamedRow.mk nid nm)) := by
  have hfil : Repository.filter [("name", Value.str nm)]
      ((rows ++ [NamedRow.mk nid nm]).map NamedRow.toRow) = [NamedRow.toRow (NamedRow.mk nid nm)] := by
    rw [filter_by_name, List.filter_append]
    have h1 : rows.filter (fun r => decide (r.name = nm)) = [] :=
      List.filter_eq_nil_iff.mpr fun r hr => by simpa using hfresh r hr
    rw [h1]
    simp
  simp only [List.map_append, List.map_cons, List.map_nil] at hfil
  simp [Repository.get, hfil]

/-- C4: `StoreRepository.save` upserts the row by id — on a key conflict the
existing row's name is updated and the instance comes back unchanged — and
when the instance arrived without an id it populates the instance's id from
the lookup of the row by name performed after the insert (in particular, on a
fresh name the freshly auto-assigned id is written back). -/
theorem store_save_upsert_and_resolves_id (db : DB) (s : Store) :
    (∀ i, s.id = some i → i ≠ 0 → (∃ r ∈ db.store, r.id = i) →
      StoreRepository.save db s =
        .ok (s,
          { db with
            store := db.store.map (fun r => if r.id = i then { r with name := s.name } else r) })) ∧
    (s.id = none → (∀ r ∈ db.store, r.name ≠ s.name) →
      StoreRepository.save db s =
        .ok ({ s with id := some db.nextStoreId },
          { db with
            store := db.store ++ [⟨db.nextStoreId, s.name⟩],
            nextStoreId := db.nextStoreId + 1 })) ∧
    (s.id = none →
      StoreRepository.save db s =
        (StoreRepository.get_by_name
            { db with
              store := db.store ++ [⟨db.nextStoreId, s.name⟩],
              nextStoreId := db.nextStoreId + 1 } s.name).map
          fun found => ({ s with id := found.id },
            { db with
              store := db.store ++ [⟨db.nextStoreId, s.name⟩],
              nextStoreId := db.nextStoreId + 1 })) := by
  refine ⟨?_, ?_, ?_⟩
  · intro i hsi hi hex
    simp only [StoreRepository.save, hsi, upsertNamedRow]
    rw [if_neg hi, if_pos hex]
    simp [pyTruthy, hi]
  · intro hsi hfresh
    simp only [StoreRepository.save, hsi, upsertNamedRow]
    rw [if_neg (by simp [pyTruthy])]
    have hgb : StoreRepository.get_by_name
        { db with
          store := db.store ++ [⟨db.nextStoreId, s.name⟩],
          nextStoreId := db.nextStoreId + 1 } s.name =
        .ok ⟨some db.nextStoreId, s.name⟩ := by
      have hget := get_on_fresh_name db.store db.nextStoreId s.name hfresh
      simp only [List.map_append, List.map_cons, List.map_nil, NamedRow.toRow] at hget
      simp [StoreRepository.get_by_name, NamedRow.toRow, hget, Store.ofRow, lookupField,
        Except.map]
    rw [hgb]
  · intro hsi
    simp only [StoreRepository.save, hsi, upsertNamedRow]
    rw [if_neg (by simp [pyTruthy])]
    cases hg : StoreRepository.get_by_name
        { db with
          store := db.store ++ [⟨db.nextStoreId, s.name⟩],
          nextStoreId := db.nextStoreId + 1 } s.name with
    | ok found => rfl
    | error e => rfl

/-- C4 witness: saving a store that arrived without an id, under a fresh
name, assigns the next auto-increment id and writes it into the instance. -/
theorem store_save_upsert_and_resolves_id_witness :
    StoreRepository.save ⟨[⟨1, "Other"⟩], [], [], [], [], [], 2, 1⟩
        ⟨none, "Carrefour"⟩ =
      .ok (⟨some 2, "Carrefour"⟩,
        ⟨[⟨1, "Other"⟩, ⟨2, "Carrefour"⟩], [], [], [], [], [], 3, 1⟩) :=
  (store_save_upsert_and_resolves_id ⟨[⟨1, "Other"⟩], [], [], [], [], [], 2, 1⟩
      ⟨none, "Carrefour"⟩).2.1 rfl (by decide)

/-- C5: `ProductRepository.save` and `FavoriteRepository.save` are plain
inserts with no upsert clause: once a save of a product id, or of a
(substitute, original) favorite pair, has succeeded, saving the same instance
again fails with the uniqueness constraint violation propagated from the
gateway. -/
theorem plain_insert_second_save_fails (db : DB) (p : Product) (f : Favorite) :
    (∀ p' db', ProductRepository.save db p = .ok (p', db') →
      ProductRepository.save db' p = .error .constraintViolation) ∧
    (∀ f' db', FavoriteRepository.save db f = .ok (f', db') →
      FavoriteRepository.save db' f = .error .constraintViolation) := by
  constructor
  · intro p' db' h
    by_cases hg : ∃ q ∈ db.product, q.id = p.id
    · simp [ProductRepository.save, hg] at h
    · simp only [ProductRepository.save, if_neg hg, Except.ok.injEq, Prod.mk.injEq] at h
      obtain ⟨hp, hdb⟩ := h
      subst hdb
      simp only [ProductRepository.save]
      rw [if_pos ⟨p, by simp, rfl⟩]
  · intro f' db' h
    by_cases hg : (∃ g ∈ db.favorite,
          g.substitut_id = f.substitut_id ∧ g.original_id = f.original_id) ∨
        ¬ (∃ q ∈ db.product, q.id = f.substitut_id) ∨
        ¬ (∃ q ∈ db.product, q.id = f.original_id)
    · simp only [FavoriteRepository.save, if_pos hg] at h
      exact absurd h (by simp)
    · simp only [FavoriteRepository.save, if_neg hg, Except.ok.injEq, Prod.mk.injEq] at h
      obtain ⟨hf, hdb⟩ := h
      subst hdb
      simp only [FavoriteRepository.save]
      rw [if_pos (Or.inl ⟨f, by simp, rfl, rfl⟩)]

/-- C5 witness: re-saving an already-present product id, and an
already-present favorite pair, both fail with the constraint violation. -/
theorem plain_insert_second_save_fails_witness :
    ProductRepository.save
        ⟨[], [⟨123, "Nutella", "e", none⟩], [], [], [], [], 1, 1⟩
        ⟨123, "Nutella", "e", none⟩ = .error .constraintViolation ∧
    FavoriteRepository.save
        ⟨[], [⟨123, "Nutella", "e", none⟩, ⟨124, "Jam", "b", none⟩], [],
          [⟨124, 123⟩], [], [], 1, 1⟩
        ⟨124, 123⟩ = .error .constraintViolation :=
  ⟨(plain_insert_second_save_fails ⟨[], [], [], [], [], [], 1, 1⟩
        ⟨123, "Nutella", "e", none⟩ ⟨124, 123⟩).1
      ⟨123, "Nutella", "e", none⟩ ⟨[], [⟨123, "Nutella", "e", none⟩], [], [], [], [], 1, 1⟩ rfl,
   (plain_insert_second_save_fails
        ⟨[], [⟨123, "Nutella", "e", none⟩, ⟨124, "Jam", "b", none⟩], [], [], [], [], 1, 1⟩
        ⟨123, "Nutella", "e", none⟩ ⟨124, 123⟩).2
      ⟨124, 123⟩
      ⟨[], [⟨123, "Nutella", "e", none⟩, ⟨124, "Jam", "b", none⟩], [], [⟨124, 123⟩], [], [], 1, 1⟩
      rfl⟩

theorem insertIgnorePS_once_then_noop (db : DB) (pid sid : Nat)
    (hp : ∃ p ∈ db.product, p.id = pid) (hs : ∃ s ∈ db.store, s.id = sid)
    (hcount : (db.product_store.countP
        fun e => decide (e.product_id = pid ∧ e.store_id = sid)) ≤ 1) :
    ((insertIgnoreProductStore db pid (some sid)).product_store.countP
        fun e => decide (e.product_id = pid ∧ e.store_id = sid)) = 1 ∧
    insertIgnoreProductStore (insertIgnoreProductStore db pid (some sid)) pid (some sid) =
      insertIgnoreProductStore db pid (some sid) := by
  by_cases hdup : ∃ e ∈ db.product_store, e.product_id = pid ∧ e.store_id = sid
  · have hni : insertIgnoreProductStore db pid (some sid) = db := by
      simp only [insertIgnoreProductStore]
      rw [if_neg (fun hcon => hcon.2.2 hdup)]
    have hpos : 0 < db.product_store.countP
        (fun e => decide (e.product_id = pid ∧ e.store_id = sid)) := by
      rw [List.countP_pos_iff]
      obtain ⟨e, he, h1, h2⟩ := hdup
      exact ⟨e, he, by simp [h1, h2]⟩
    refine ⟨?_, by rw [hni, hni]⟩
    rw [hni]
    omega
  · have hins : insertIgnoreProductStore db pid (some sid) =
        { db with product_store := db.product_store ++ [⟨pid, sid⟩] } := by
      simp only [insertIgnoreProductStore]
      rw [if_pos ⟨hp, hs, hdup⟩]
    have h0 : db.product_store.countP
        (fun e => decide (e.product_id = pid ∧ e.store_id = sid)) = 0 := by
      rw [List.countP_eq_zero]
      intro e he
      simp only [decide_eq_true_eq]
      intro hc
      exact hdup ⟨e, he, hc⟩
    constructor
    · rw [hins]
      simp only [List.countP_append, h0]
      simp [List.countP_cons]
    · rw [hins]
      simp only [insertIgnoreProductStore]
      rw [if_neg (fun hcon => hcon.2.2 ⟨⟨pid, sid⟩, by simp, rfl, rfl⟩)]

theorem insertIgnorePC_once_then_noop (db : DB) (pid cid : Nat)
    (hp : ∃ p ∈ db.product, p.id = pid) (hc : ∃ c ∈ db.category, c.id = cid)
    (hcount : (db.product_category.countP
        fun e => decide (e.product_id = pid ∧ e.category_id = cid)) ≤ 1) :
    ((insertIgnoreProductCategory db pid (some cid)).product_category.countP
        fun e => decide (e.product_id = pid ∧ e.category_id = cid)) = 1 ∧
    insertIgnoreProductCategory (insertIgnoreProductCategory db pid (some cid)) pid (some cid) =
      insertIgnoreProductCategory db pid (some cid) := by
  by_cases hdup : ∃ e ∈ db.product_category, e.product_id = pid ∧ e.category_id = cid
  · have hni : insertIgnoreProductCategory db pid (some cid) = db := by
      simp only [insertIgnoreProductCategory]
      rw [if_neg (fun hcon => hcon.2.2 hdup)]
    have hpos : 0 < db.product_category.countP
        (fun e => decide (e.product_id = pid ∧ e.category_id = cid)) := by
      rw [List.countP_pos_iff]
      obtain ⟨e, he, h1, h2⟩ := hdup
      exact ⟨e, he, by simp [h1, h2]⟩
    refine ⟨?_, by rw [hni, hni]⟩
    rw [hni]
    omega
  · have hins : insertIgnoreProductCategory db pid (some cid) =
        { db with product_category := db.product_category ++ [⟨pid, cid⟩] } := by
      simp only [insertIgnoreProductCategory]
      rw [if_pos ⟨hp, hc, hdup⟩]
    have h0 : db.product_category.countP
        (fun e => decide (e.product_id = pid ∧ e.category_id = cid)) = 0 := by
      rw [List.countP_eq_zero]
      intro e he
      simp only [decide_eq_true_eq]
      intro hc2
      exact hdup ⟨e, he, hc2⟩
    constructor
    · rw [hins]
      simp only [List.countP_append, h0]
      simp [List.countP_cons]
    · rw [hins]
      simp only [insertIgnoreProductCategory]
      rw [if_neg (fun hcon => hcon.2.2 ⟨⟨pid, cid⟩, by simp, rfl, rfl⟩)]

/-- C6: the edge inserts `StoreRepository.add_product`,
`ProductRepository.add_store` and `ProductRepository.add_category` are
idempotent — for a store / product / category pair whose rows exist (and
whose edge tables satisfy the primary-key invariant of at most one row per
pair), calling the operation twice leaves exactly one edge row for the pair
and the second call is a no-op. -/
theorem edge_adds_idempotent (db : DB) (store : Store) (product : Product)
    (category : Category) (sid cid : Nat)
    (hsid : store.id = some sid) (hcid : category.id = some cid)
    (hp : ∃ q ∈ db.product, q.id = product.id)
    (hs : ∃ r ∈ db.store, r.id = sid)
    (hc : ∃ c ∈ db.category, c.id = cid)
    (hps : (db.product_store.countP
        fun e => decide (e.product_id = product.id ∧ e.store_id = sid)) ≤ 1)
    (hpc : (db.product_category.countP
        fun e => decide (e.product_id = product.id ∧ e.category_id = cid)) ≤ 1) :
    (StoreRepository.add_product (StoreRepository.add_product db store product) store product =
        StoreRepository.add_product db store product ∧
      ((StoreRepository.add_product db store product).product_store.countP
        fun e => decide (e.product_id = product.id ∧ e.store_id = sid)) = 1) ∧
    (ProductRepository.add_store (ProductRepository.add_store db product store) product store =
        ProductRepository.add_store db product store ∧
      ((ProductRepository.add_store db product store).product_store.countP
        fun e => decide (e.product_id = product.id ∧ e.store_id = sid)) = 1) ∧
    (ProductRepository.add_category
          (ProductRepository.add_category db product category) product category =
        ProductRepository.add_category db product category ∧
      ((ProductRepository.add_category db product category).product_category.countP
        fun e => decide (e.product_id = product.id ∧ e.category_id = cid)) = 1) := by
  obtain ⟨h1, h2⟩ := insertIgnorePS_once_then_noop db product.id sid hp hs hps
  obtain ⟨h3, h4⟩ := insertIgnorePC_once_then_noop db product.id cid hp hc hpc
  simp only [StoreRepository.add_product, ProductRepository.add_store,
    ProductRepository.add_category, hsid, hcid]
  exact ⟨⟨h2, h1⟩, ⟨h2, h1⟩, ⟨h4, h3⟩⟩

/-- C6 witness: adding the (product 123, store 1) edge twice leaves exactly
one `product_store` row for the pair. -/
theorem edge_adds_idempotent_witness :
    ((StoreRepository.add_product
        ⟨[⟨1, "Shop"⟩], [⟨123, "Nutella", "e", none⟩], [⟨2, "Spreads"⟩], [], [], [], 2, 3⟩
        ⟨some 1, "Shop"⟩ ⟨123, "Nutella", "e", none⟩).product_store.countP
      fun e => decide (e.product_id = 123 ∧ e.store_id = 1)) = 1 :=
  (edge_adds_idempotent
      ⟨[⟨1, "Shop"⟩], [⟨123, "Nutella", "e", none⟩], [⟨2, "Spreads"⟩], [], [], [], 2, 3⟩
      ⟨some 1, "Shop"⟩ ⟨123, "Nutella", "e", none⟩ ⟨some 2, "Spreads"⟩ 1 2
      rfl rfl (by decide) (by decide) (by decide) (by decide) (by decide)).1.2

/-- C7: `FavoriteRepository.get_all_by_favorite` does return the products
linked to the given store through the `product_store` edge table (built from
the id and name columns, and not read from `favorite` rows — below, the
favorite table holds the pair (124, 123) yet plays no part), but
`ProductRepository.get_favorite_by_product` never returns anything: its body
reads the unbound name `store`, so every call raises `NameError`. -/
theorem favorite_listing_uses_product_store_edge :
    ProductRepository.get_favorite_by_product
        ⟨[⟨1, "Shop"⟩], [⟨123, "Nutella", "e", none⟩], [], [⟨124, 123⟩], [⟨123, 1⟩], [], 2, 1⟩
        ⟨123, "Nutella", "e", none⟩ = .error .nameError ∧
    FavoriteRepository.get_all_by_favorite
        ⟨[⟨1, "Shop"⟩], [⟨123, "Nutella", "e", none⟩], [], [⟨124, 123⟩], [⟨123, 1⟩], [], 2, 1⟩
        ⟨some 1, "Shop"⟩ = [⟨123, "Nutella"⟩] :=
  ⟨rfl, by decide⟩

/-- C8: after creating the category and linking product 123 to it through
`add_category` (the `product_category` row exists), listing by that category
does not return the product: the query of
`CategoryRepository.get_all_by_category` is rejected by the gateway, because
it refers to `category.id` while `category` is not in its FROM clause. -/
theorem list_by_category_query_rejected :
    (ProductRepository.add_category
        ⟨[], [⟨123, "Nutella", "e", none⟩], [⟨1, "Spreads"⟩], [], [], [], 1, 2⟩
        ⟨123, "Nutella", "e", none⟩ ⟨some 1, "Spreads"⟩).product_category = [⟨123, 1⟩] ∧
    CategoryRepository.get_all_by_category
        ⟨[], [⟨123, "Nutella", "e", none⟩], [⟨1, "Spreads"⟩], [], [], [⟨123, 1⟩], 1, 2⟩
        ⟨some 1, "Spreads"⟩ = .error .queryError :=
  ⟨by decide, rfl⟩

/-- C9: `CategoryRepository.save` returns the very instance it was given,
id attribute untouched — while `StoreRepository.save` does rewrite the id of
an id-less instance after inserting (witnessed by a store saved without an
id coming back with the freshly assigned one). -/
theorem category_save_returns_instance_unchanged :
    (∀ (db : DB) (c : Category), (CategoryRepository.save db c).1 = c) ∧
    (∃ (db : DB) (s s' : Store) (db' : DB),
      StoreRepository.save db s = .ok (s', db') ∧ s'.id ≠ s.id) := by
  constructor
  · intro db c
    rfl
  · exact ⟨⟨[], [], [], [], [], [], 1, 1⟩, ⟨none, "a"⟩, ⟨some 1, "a"⟩,
      ⟨[⟨1, "a"⟩], [], [], [], [], [], 2, 1⟩, rfl, by decide⟩
